import Mathlib

/-!
Shallow embedding of the wildfire-detection core of the repository:

* `src/analysis/risk_calculator.py` — `FireRiskCalculator.calculate_base_risk`,
  `FireRiskCalculator.calculate_enhanced_risk`, `FireRiskCalculator.create_risk_buffers`;
* `src/filters/industrial_filter.py` — `IndustrialHeatFilter.identify_persistent_anomalies`,
  `IndustrialHeatFilter.filter_fires`.

Modelling conventions:
* pandas float values are rationals `ℚ`; a value that the code leaves as NaN
  (a missed dictionary `map`, so an undefined normalized feature and hence an
  undefined score) is `Option.none`; per-cell missing data in a present column
  is `Option ℚ` with `none` for NaN, which `fillna` replaces.
* Column presence (pandas `"col" in df.columns`) is a batch-level Bool flag.
* A GeoDataFrame is a list of rows; row order is preserved by every operation,
  as pandas does.
* Geometry is modelled by the projected (EPSG:5070, metres) coordinates of the
  point; shapely `within` on a buffered union of points is interior membership
  of a union of discs, i.e. a strict distance comparison.
* `pd.cut(x, bins=[0,30,60,100], labels=[...])` uses the pandas defaults
  `right=True`, `include_lowest=False`: the intervals are the right-closed
  `(0,30]`, `(30,60]`, `(60,100]`, and values outside them (including exactly
  `0` and NaN) get a NaN category, modelled as `none`.
* `GeoDataFrame.dissolve(by=key)` groups with the pandas default
  `observed=False`; on the `pd.cut` categorical key it therefore emits one row
  per category LEVEL (always the three, in categorical order), aggregating the
  other columns with `aggfunc="first"` (first row of the group in input order,
  NaN for an empty group); rows with a NaN key are dropped (`dropna=True`).
* dates (`acq_date`, compared as ISO strings in SQL) are `Nat` day numbers.
* the program computes in IEEE-754 binary64.  The `baseRiskScore` /
  `enhancedRiskScore` functions below are its real-arithmetic idealization,
  used for the claims whose truth a correctly-rounded evaluation cannot
  change; the `roundDouble`-based `fBaseRiskScore` / `fEnhancedRiskScore`
  functions are the bit-accurate model (doubles are exact rationals, each
  operation rounds once to nearest-even at 53 bits), used where bucket-
  boundary behavior is at stake.
-/

/-- Discrete risk category, the three labels of the `pd.cut` in
`calculate_base_risk` and `calculate_enhanced_risk`. -/
inductive RiskCategory where
  | Low
  | Moderate
  | High
deriving DecidableEq

/-- Detection confidence as stored in the `confidence` column: categorical
strings for VIIRS (`object` dtype) or numeric 0-100 for MODIS. -/
inductive Confidence where
  | cat (s : String)
  | num (v : ℚ)
deriving DecidableEq

/-- One fire-detection row of the input GeoDataFrame, with the columns read by
`FireRiskCalculator`.  Weather columns hold `none` for a NaN cell. -/
structure FireDetection where
  fire_id : Nat
  bright_ti4 : ℚ
  confidence : Confidence
  frp : ℚ
  daynight : String
  relative_humidity : Option ℚ
  wind_speed_kmh : Option ℚ
  precip_probability : Option ℚ
  fire_danger_index : Option ℚ
deriving DecidableEq

/-- A batch of detections together with which optional columns exist in the
frame (pandas column presence is a property of the frame, not of a row). -/
structure FireBatch where
  rows : List FireDetection
  hasHumidityCol : Bool
  hasWindCol : Bool
  hasPrecipCol : Bool
  hasFireDangerCol : Bool
deriving DecidableEq

/-- `Series.clip(lower=0.0, upper=1.0)`. -/
def clip01 (x : ℚ) : ℚ := min 1 (max 0 x)

/-- brightness normalization: `(df["bright_ti4"] - 300) / 100` clipped to [0,1]. -/
def brightnessNorm (d : FireDetection) : ℚ := clip01 ((d.bright_ti4 - 300) / 100)

/-- The categorical `confidence_map = {"l": 0.33, "n": 0.66, "h": 1.0}`; any
other string is absent from the dict, so `Series.map` yields NaN (`none`). -/
def confidenceMap : String → Option ℚ
  | "l" => some (33 / 100)
  | "n" => some (66 / 100)
  | "h" => some 1
  | _ => none

/-- confidence normalization: the dict map for an `object` column (VIIRS), or
`confidence / 100` for a numeric column (MODIS). -/
def confidenceNorm (d : FireDetection) : Option ℚ :=
  match d.confidence with
  | Confidence.cat s => confidenceMap s
  | Confidence.num v => some (v / 100)

/-- FRP normalization: `(df["frp"] / 500).clip(lower=0.0, upper=1.0)`. -/
def frpNorm (d : FireDetection) : ℚ := clip01 (d.frp / 500)

/-- day/night normalization: `df["daynight"].map({"D": 0.5, "N": 1.0})`; any
other value maps to NaN (`none`). -/
def daynightMap : String → Option ℚ
  | "D" => some (1 / 2)
  | "N" => some 1
  | _ => none

/-- day/night normalized feature of a detection. -/
def daynightNorm (d : FireDetection) : Option ℚ := daynightMap d.daynight

/-- humidity normalization in enhanced mode:
`(1 - df["relative_humidity"].fillna(50.0) / 100).clip(0, 1)`. -/
def humidityNorm (d : FireDetection) : ℚ :=
  clip01 (1 - (d.relative_humidity.getD 50) / 100)

/-- wind normalization in enhanced mode:
`(df["wind_speed_kmh"].fillna(0.0) / 60).clip(0, 1)`. -/
def windNorm (d : FireDetection) : ℚ :=
  clip01 ((d.wind_speed_kmh.getD 0) / 60)

/-- precipitation normalization in enhanced mode:
`(1 - df["precip_probability"].fillna(0.0) / 100).clip(0, 1)`. -/
def precipNorm (d : FireDetection) : ℚ :=
  clip01 (1 - (d.precip_probability.getD 0) / 100)

/-- fire-danger normalization in enhanced mode:
`(df["fire_danger_index"].fillna(0.0) / 100).clip(0, 1)` when the column
exists, else the neutral constant `0.5`. -/
def fireDangerNorm (hasFD : Bool) (d : FireDetection) : ℚ :=
  if hasFD then clip01 ((d.fire_danger_index.getD 0) / 100) else 1 / 2

/-- Base-mode composite score, `100 × (0.3·brightness + 0.2·confidence +
0.3·frp + 0.2·daynight)`, in real (exact rational) arithmetic — the
idealization of the double evaluation, adequate where a correctly-rounded
evaluation cannot change the claim (see `fBaseRiskScore` for the bit-accurate
version).  NaN (an undefined confidence or daynight feature) propagates
through the arithmetic, so the score is `none` exactly when one of those two
normalized features is undefined. -/
def baseRiskScore (d : FireDetection) : Option ℚ :=
  match confidenceNorm d, daynightNorm d with
  | some c, some dn =>
      some ((brightnessNorm d * (3 / 10) + c * (2 / 10)
        + frpNorm d * (3 / 10) + dn * (2 / 10)) * 100)
  | _, _ => none

/-- Enhanced-mode composite score with the `enhanced_weights`
(0.20, 0.15, 0.20, 0.10, 0.15, 0.10, 0.05, 0.05), in real arithmetic (see
`fEnhancedRiskScore` for the bit-accurate version); the weather features are
filled with neutral defaults before use, so again only an undefined confidence
or daynight feature makes the score NaN. -/
def enhancedRiskScore (hasFD : Bool) (d : FireDetection) : Option ℚ :=
  match confidenceNorm d, daynightNorm d with
  | some c, some dn =>
      some ((brightnessNorm d * (20 / 100) + c * (15 / 100)
        + frpNorm d * (20 / 100) + dn * (10 / 100)
        + humidityNorm d * (15 / 100) + windNorm d * (10 / 100)
        + precipNorm d * (5 / 100) + fireDangerNorm hasFD d * (5 / 100)) * 100)
  | _, _ => none

/-- The categorization `pd.cut(score, bins=[0, 30, 60, 100],
labels=["Low", "Moderate", "High"])` with the pandas defaults: right-closed
intervals `(0,30]`, `(30,60]`, `(60,100]`; anything else (including exactly 0)
is out of range and yields NaN. -/
def categorize (q : ℚ) : Option RiskCategory :=
  if 0 < q ∧ q ≤ 30 then some RiskCategory.Low
  else if 30 < q ∧ q ≤ 60 then some RiskCategory.Moderate
  else if 60 < q ∧ q ≤ 100 then some RiskCategory.High
  else none

/-- A row of the scored output frame: the original detection plus the
`risk_score`, `risk_category` and (enhanced path only) `uses_weather_data`
columns. -/
structure ScoredRow where
  det : FireDetection
  risk_score : Option ℚ
  risk_category : Option RiskCategory
  uses_weather_data : Option Bool
deriving DecidableEq

/-- Scoring one row in base mode (`risk_category` is the cut of the score; a
NaN score cuts to NaN). -/
def scoreRowBase (d : FireDetection) : ScoredRow :=
  { det := d
    risk_score := baseRiskScore d
    risk_category := (baseRiskScore d).bind categorize
    uses_weather_data := none }

/-- Scoring one row in enhanced (weather) mode, which also sets
`uses_weather_data = True`. -/
def scoreRowEnhanced (hasFD : Bool) (d : FireDetection) : ScoredRow :=
  { det := d
    risk_score := enhancedRiskScore hasFD d
    risk_category := (enhancedRiskScore hasFD d).bind categorize
    uses_weather_data := some true }

/-- `FireRiskCalculator.calculate_base_risk`: score every row of the batch in
base mode. -/
def calculate_base_risk (b : FireBatch) : List ScoredRow :=
  b.rows.map scoreRowBase

/-- The `has_weather` check of `calculate_enhanced_risk`: all three of the
`relative_humidity`, `wind_speed_kmh`, `precip_probability` columns exist. -/
def hasWeather (b : FireBatch) : Bool :=
  b.hasHumidityCol && b.hasWindCol && b.hasPrecipCol

/-- `FireRiskCalculator.calculate_enhanced_risk`: if any weather column is
missing, fall back to `calculate_base_risk` unchanged; otherwise score every
row with the enhanced weights. -/
def calculate_enhanced_risk (b : FireBatch) : List ScoredRow :=
  if hasWeather b then b.rows.map (scoreRowEnhanced b.hasFireDangerCol)
  else calculate_base_risk b


/-- Round-to-nearest-integer with ties to even, on rationals. -/
def rne (q : ℚ) : ℤ :=
  if q - (⌊q⌋ : ℚ) < 1 / 2 then ⌊q⌋
  else if 1 / 2 < q - (⌊q⌋ : ℚ) then ⌊q⌋ + 1
  else if Even ⌊q⌋ then ⌊q⌋ else ⌊q⌋ + 1

/-- IEEE-754 binary64 rounding (round to nearest, ties to even) of an exact
rational value, for values in the normal range: the value is scaled into
`[2^52, 2^53)`, its 53-bit significand is picked by `rne`, and the result is
scaled back.  Every value this development applies it to is normal and far
from overflow and underflow, where this is exactly the rounding the hardware
doubles of numpy/pandas perform. -/
def roundDouble (x : ℚ) : ℚ :=
  if x = 0 then 0
  else ((rne (x * 2 ^ ((52 : ℤ) - Int.log 2 |x|)) : ℤ) : ℚ)
    * 2 ^ (Int.log 2 |x| - (52 : ℤ))

/-- A double-precision decimal literal of the python source: the nearest
double to the written value. -/
def dbl (x : ℚ) : ℚ := roundDouble x

/-- Double addition: exact sum, then one rounding. -/
def fadd (x y : ℚ) : ℚ := roundDouble (x + y)

/-- Double subtraction: exact difference, then one rounding. -/
def fsub (x y : ℚ) : ℚ := roundDouble (x - y)

/-- Double multiplication: exact product, then one rounding. -/
def fmul (x y : ℚ) : ℚ := roundDouble (x * y)

/-- Double division: exact quotient, then one rounding. -/
def fdiv (x y : ℚ) : ℚ := roundDouble (x / y)

/-- Bit-accurate brightness normalization:
`(df["bright_ti4"] - 300) / 100` in doubles, clipped (clipping compares and
substitutes exactly, no rounding).  Input fields are doubles already. -/
def fBrightnessNorm (d : FireDetection) : ℚ :=
  clip01 (fdiv (fsub d.bright_ti4 300) 100)

/-- Bit-accurate categorical confidence map: the literals 0.33 and 0.66 are
the nearest doubles; 1.0 is exact. -/
def fConfidenceMap : String → Option ℚ
  | "l" => some (dbl (33 / 100))
  | "n" => some (dbl (66 / 100))
  | "h" => some 1
  | _ => none

/-- Bit-accurate confidence normalization. -/
def fConfidenceNorm (d : FireDetection) : Option ℚ :=
  match d.confidence with
  | Confidence.cat s => fConfidenceMap s
  | Confidence.num v => some (fdiv v 100)

/-- Bit-accurate FRP normalization: `(df["frp"] / 500).clip(0, 1)`. -/
def fFrpNorm (d : FireDetection) : ℚ := clip01 (fdiv d.frp 500)

/-- Bit-accurate day/night normalization: the literals 0.5 and 1.0 are exact
doubles, so the rational map is already exact. -/
def fDaynightNorm (d : FireDetection) : Option ℚ := daynightMap d.daynight

/-- Bit-accurate humidity normalization:
`(1 - fillna(50)/100).clip(0, 1)` in doubles. -/
def fHumidityNorm (d : FireDetection) : ℚ :=
  clip01 (fsub 1 (fdiv (d.relative_humidity.getD 50) 100))

/-- Bit-accurate wind normalization: `(fillna(0)/60).clip(0, 1)` in doubles. -/
def fWindNorm (d : FireDetection) : ℚ :=
  clip01 (fdiv (d.wind_speed_kmh.getD 0) 60)

/-- Bit-accurate precipitation normalization:
`(1 - fillna(0)/100).clip(0, 1)` in doubles. -/
def fPrecipNorm (d : FireDetection) : ℚ :=
  clip01 (fsub 1 (fdiv (d.precip_probability.getD 0) 100))

/-- Bit-accurate fire-danger normalization; the neutral literal 0.5 is an
exact double. -/
def fFireDangerNorm (hasFD : Bool) (d : FireDetection) : ℚ :=
  if hasFD then clip01 (fdiv (d.fire_danger_index.getD 0) 100) else 1 / 2

/-- Bit-accurate base-mode composite score: the weight literals are the
nearest doubles to 0.3 and 0.2, the four products and three sums and the final
`* 100` each round once, left-associated exactly as the pandas expression on
lines 72-77 evaluates elementwise. -/
def fBaseRiskScore (d : FireDetection) : Option ℚ :=
  match fConfidenceNorm d, fDaynightNorm d with
  | some c, some dn =>
      some (fmul (fadd (fadd (fadd
        (fmul (fBrightnessNorm d) (dbl (3 / 10)))
        (fmul c (dbl (2 / 10))))
        (fmul (fFrpNorm d) (dbl (3 / 10))))
        (fmul dn (dbl (2 / 10)))) 100)
  | _, _ => none

/-- Bit-accurate enhanced-mode composite score (weights 0.20, 0.15, 0.20,
0.10, 0.15, 0.10, 0.05, 0.05 as nearest doubles, left-associated sums, one
rounding per operation). -/
def fEnhancedRiskScore (hasFD : Bool) (d : FireDetection) : Option ℚ :=
  match fConfidenceNorm d, fDaynightNorm d with
  | some c, some dn =>
      some (fmul (fadd (fadd (fadd (fadd (fadd (fadd (fadd
        (fmul (fBrightnessNorm d) (dbl (20 / 100)))
        (fmul c (dbl (15 / 100))))
        (fmul (fFrpNorm d) (dbl (20 / 100))))
        (fmul dn (dbl (10 / 100))))
        (fmul (fHumidityNorm d) (dbl (15 / 100))))
        (fmul (fWindNorm d) (dbl (10 / 100))))
        (fmul (fPrecipNorm d) (dbl (5 / 100))))
        (fmul (fFireDangerNorm hasFD d) (dbl (5 / 100)))) 100)
  | _, _ => none

/-- Bit-accurate scoring of one row in base mode. -/
def fScoreRowBase (d : FireDetection) : ScoredRow :=
  { det := d
    risk_score := fBaseRiskScore d
    risk_category := (fBaseRiskScore d).bind categorize
    uses_weather_data := none }

/-- Bit-accurate scoring of one row in enhanced mode. -/
def fScoreRowEnhanced (hasFD : Bool) (d : FireDetection) : ScoredRow :=
  { det := d
    risk_score := fEnhancedRiskScore hasFD d
    risk_category := (fEnhancedRiskScore hasFD d).bind categorize
    uses_weather_data := some true }

/-- `calculate_base_risk` with the bit-accurate IEEE-double arithmetic the
program actually performs (the rational `calculate_base_risk` above is its
real-arithmetic idealization, adequate where rounding cannot change the
claim). -/
def calculate_base_risk_fp (b : FireBatch) : List ScoredRow :=
  b.rows.map fScoreRowBase

/-- `calculate_enhanced_risk` with bit-accurate IEEE-double arithmetic. -/
def calculate_enhanced_risk_fp (b : FireBatch) : List ScoredRow :=
  if hasWeather b then b.rows.map (fScoreRowEnhanced b.hasFireDangerCol)
  else calculate_base_risk_fp b

/-- A scored GeoDataFrame handed to `create_risk_buffers`: its rows plus
whether the `fire_id` and `risk_category` columns exist in the frame. -/
structure ScoredBatch where
  rows : List ScoredRow
  hasFireIdCol : Bool
  hasRiskCategoryCol : Bool
deriving DecidableEq

/-- One output row of `create_risk_buffers`.  Only the columns a claim talks
about are modelled: the geometry and, for the non-dissolved branch, the other
retained scalar columns are omitted.  `fire_id = none` means the column is
absent (or NaN) in that output row. -/
structure BufferRow where
  risk_category : Option RiskCategory
  fire_id : Option Nat
deriving DecidableEq

/-- The three levels of the categorical `risk_category` column that `pd.cut`
produces: they exist as dtype metadata even when no row carries them, in the
categorical order Low < Moderate < High. -/
def categoryLevels : List RiskCategory :=
  [RiskCategory.Low, RiskCategory.Moderate, RiskCategory.High]

/-- The `dissolve(by="risk_category", aggfunc="first")` branch.  The groupby
under `dissolve` runs with the pandas default `observed=False`, and the key is
the `pd.cut` categorical, so it emits one group per category LEVEL — always
the three, in categorical order — not only per value present; rows whose key
is NaN are dropped (`dropna=True`).  Aggregation `"first"` takes the first row
of the group in input order, and is NaN for an empty (unobserved) group.  The
code keeps `fire_id` in `buffer_cols` whenever the input frame has it. -/
def dissolveByCategory (b : ScoredBatch) : List BufferRow :=
  categoryLevels.map fun c =>
    { risk_category := some c
      fire_id :=
        if b.hasFireIdCol then
          ((b.rows.find? (fun r => decide (r.risk_category = some c))).map
            (fun r => r.det.fire_id))
        else none }

/-- `FireRiskCalculator.create_risk_buffers`: buffer every point (geometry not
modelled), then either dissolve by risk category (when requested and the
column exists) or keep one row per detection with the key attribute columns. -/
def create_risk_buffers (b : ScoredBatch) (dissolve : Bool) : List BufferRow :=
  if dissolve && b.hasRiskCategoryCol then dissolveByCategory b
  else
    b.rows.map fun r =>
      { risk_category := r.risk_category
        fire_id := if b.hasFireIdCol then some r.det.fire_id else none }

/-- A point in the projected equal-area plane (EPSG:5070), coordinates in
metres. -/
structure ProjPoint where
  x : ℚ
  y : ℚ
deriving DecidableEq

/-- One live detection as seen by `IndustrialHeatFilter.filter_fires`: its
identifier and its projected point geometry. -/
structure FireDet where
  fire_id : Nat
  pt : ProjPoint
deriving DecidableEq

/-- Squared euclidean distance in the projected plane. -/
def distSq (p q : ProjPoint) : ℚ := (p.x - q.x) ^ 2 + (p.y - q.y) ^ 2

/-- shapely `point.within(buffered union of the persistent points)`: the point
lies in the interior of the union of the closed discs of radius
`buffer_km * 1000` metres, i.e. strictly closer than the radius to some
persistent location.  A point exactly on the boundary is NOT `within`. -/
def isIndustrial (P : List ProjPoint) (bufferKm : ℚ) (p : ProjPoint) : Bool :=
  P.any fun c => decide (distSq p c < (bufferKm * 1000) ^ 2)

/-- `IndustrialHeatFilter.filter_fires`: with no persistent locations the
batch passes through untouched; otherwise the rows are split by the
`is_industrial` mask into (retained wildfires, excluded industrial). -/
def filter_fires (fires : List FireDet) (P : List ProjPoint) (bufferKm : ℚ) :
    List FireDet × List FireDet :=
  if P.isEmpty then (fires, [])
  else
    (fires.filter (fun d => !(isIndustrial P bufferKm d.pt)),
     fires.filter (fun d => isIndustrial P bufferKm d.pt))

/-- One historical detection row of the `fires` table, as read by the grid
aggregation query of `identify_persistent_anomalies`; `acq_date` is a day
number (ISO date strings compare like their day numbers). -/
structure HistRow where
  latitude : ℚ
  longitude : ℚ
  acq_date : Nat
deriving DecidableEq

/-- The grid snap of the SQL query:
`(FLOOR(latitude / grid) * grid, FLOOR(longitude / grid) * grid)`. -/
def gridKey (g : ℚ) (r : HistRow) : ℚ × ℚ :=
  ((⌊r.latitude / g⌋ : ℚ) * g, (⌊r.longitude / g⌋ : ℚ) * g)

/-- The `WHERE acq_date >= start_date` window filter. -/
def inWindow (start : Nat) (r : HistRow) : Bool := decide (start ≤ r.acq_date)

/-- Number of windowed detections that snap to grid cell `k`
(the `COUNT(*)` of that `GROUP BY` group). -/
def cellCount (hist : List HistRow) (start : Nat) (g : ℚ) (k : ℚ × ℚ) : Nat :=
  (((hist.filter (inWindow start)).filter
    (fun r => decide (gridKey g r = k)))).length

/-- The grid cells produced by the query: group the windowed rows by grid key
and keep the groups with `HAVING COUNT(*) >= detection_threshold`.  Only the
cell keys are modelled; each kept key is one output `PersistentLocation` row. -/
def persistentCells (hist : List HistRow) (start : Nat) (g : ℚ) (t : Nat) :
    List (ℚ × ℚ) :=
  (((hist.filter (inWindow start)).map (gridKey g)).dedup).filter
    (fun k => decide (t ≤ cellCount hist start g k))

/-- `IndustrialHeatFilter.identify_persistent_anomalies`: the whole body sits
in a `try/except`; the store argument is `Except.error` when the DuckDB
connect/query raises, and in that case the `except` branch prints the error
and returns an empty GeoDataFrame.  On success it returns the thresholded grid
cells (an empty list when no cell passes). -/
def identify_persistent_anomalies (store : Except String (List HistRow))
    (start : Nat) (g : ℚ) (t : Nat) : List (ℚ × ℚ) :=
  match store with
  | Except.error _ => []
  | Except.ok hist => persistentCells hist start g t

/-- Concrete detection whose base score is exactly 30 in real arithmetic
(30.000000000000004 in the doubles of the program): brightness 300 K
(normalizes to 0), numeric confidence 100, frp 0, daytime detection. -/
def dScore30 : FireDetection :=
  { fire_id := 1
    bright_ti4 := 300
    confidence := Confidence.num 100
    frp := 0
    daynight := "D"
    relative_humidity := none
    wind_speed_kmh := none
    precip_probability := none
    fire_danger_index := none }

/-- The same detection with a larger fire radiative power (100 MW). -/
def dFrp100 : FireDetection :=
  { dScore30 with fire_id := 2, frp := 100 }

/-- Concrete detection with an unrecognized categorical confidence value:
`Series.map` leaves NaN for it. -/
def dBadConf : FireDetection :=
  { fire_id := 3
    bright_ti4 := 330
    confidence := Confidence.cat ("x")
    frp := 10
    daynight := "D"
    relative_humidity := none
    wind_speed_kmh := none
    precip_probability := none
    fire_danger_index := none }

/-- The maximal-score detection of the spec scenario: 400 K, high confidence,
frp 500, nighttime; base score 100, category High. -/
def dScoreHigh : FireDetection :=
  { fire_id := 4
    bright_ti4 := 400
    confidence := Confidence.cat ("h")
    frp := 500
    daynight := "N"
    relative_humidity := none
    wind_speed_kmh := none
    precip_probability := none
    fire_danger_index := none }

/-- The boundary-hitting detection: brightness 400 K (norm 1.0), numeric
confidence 100 (norm 1.0), frp 0, daytime (norm 0.5).  In IEEE doubles its
base composite score is exactly 60.0: fl(0.3)+fl(0.2) = 0.5 exactly,
0.5 * fl(0.2) = fl(0.1) exactly, 0.5 + fl(0.1) rounds to fl(0.6), and
fl(0.6) * 100 rounds to 60.0. -/
def d60 : FireDetection :=
  { fire_id := 5
    bright_ti4 := 400
    confidence := Confidence.num 100
    frp := 0
    daynight := "D"
    relative_humidity := none
    wind_speed_kmh := none
    precip_probability := none
    fire_danger_index := none }

/-- One-detection batch around `d60`, no optional columns. -/
def cexBatch60 : FireBatch :=
  { rows := [d60]
    hasHumidityCol := false
    hasWindCol := false
    hasPrecipCol := false
    hasFireDangerCol := false }

/-- The empty scored batch (still carrying the categorical risk_category
column, as every scored frame does). -/
def emptyScoredBatch : ScoredBatch :=
  { rows := []
    hasFireIdCol := false
    hasRiskCategoryCol := true }

/-- One-detection batch with all three weather columns present but an
unrecognized confidence value. -/
def cexBatchC4 : FireBatch :=
  { rows := [dBadConf]
    hasHumidityCol := true
    hasWindCol := true
    hasPrecipCol := true
    hasFireDangerCol := false }

/-- Batch missing the wind-speed column (so the enhanced scorer must fall
back). -/
def wBatchC6 : FireBatch :=
  { rows := [dScoreHigh]
    hasHumidityCol := true
    hasWindCol := false
    hasPrecipCol := true
    hasFireDangerCol := false }

/-- A scored row in category Low carrying detection `dScore30` (fire_id 1). -/
def srLow : ScoredRow :=
  { det := dScore30
    risk_score := some 30
    risk_category := some RiskCategory.Low
    uses_weather_data := none }

/-- A scored row in category Moderate. -/
def srModerate : ScoredRow :=
  { det := dFrp100
    risk_score := some 45
    risk_category := some RiskCategory.Moderate
    uses_weather_data := none }

/-- A scored row in category High. -/
def srHigh : ScoredRow :=
  { det := dScoreHigh
    risk_score := some 100
    risk_category := some RiskCategory.High
    uses_weather_data := none }

/-- Scored one-row batch that has a `fire_id` column. -/
def cexBatchC3 : ScoredBatch :=
  { rows := [srLow]
    hasFireIdCol := true
    hasRiskCategoryCol := true }

/-- Scored batch containing all three categories, with a `fire_id` column. -/
def wBatchC8 : ScoredBatch :=
  { rows := [srLow, srModerate, srHigh]
    hasFireIdCol := true
    hasRiskCategoryCol := true }

/-- A live detection 100 m from the origin (well inside a 1 km buffer). -/
def fNear : FireDet := { fire_id := 10, pt := { x := 100, y := 0 } }

/-- A live detection 5000 m from the origin (outside a 1 km buffer). -/
def fFar : FireDet := { fire_id := 11, pt := { x := 5000, y := 0 } }

/-- A live detection exactly 1000 m from the origin: on the boundary of a
1 km buffer. -/
def fBoundary : FireDet := { fire_id := 12, pt := { x := 1000, y := 0 } }

/-- A single persistent location at the projected origin. -/
def pOrigin : ProjPoint := { x := 0, y := 0 }

/-- Five historical detections in the same 1-degree grid cell on five
distinct days. -/
def histWit : List HistRow :=
  [ { latitude := 34, longitude := -118, acq_date := 10 }
  , { latitude := 34, longitude := -118, acq_date := 11 }
  , { latitude := 34, longitude := -118, acq_date := 12 }
  , { latitude := 34, longitude := -118, acq_date := 13 }
  , { latitude := 34, longitude := -118, acq_date := 14 } ]

/-- Unfolding of the base score when both mapped features are defined. -/
theorem baseRiskScore_some (d : FireDetection) (c dn : ℚ)
    (hc : confidenceNorm d = some c) (hdn : daynightNorm d = some dn) :
    baseRiskScore d = some ((brightnessNorm d * (3 / 10) + c * (2 / 10)
      + frpNorm d * (3 / 10) + dn * (2 / 10)) * 100) := by
  unfold baseRiskScore
  rw [hc, hdn]

/-- Unfolding of the enhanced score when both mapped features are defined. -/
theorem enhancedRiskScore_some (hasFD : Bool) (d : FireDetection) (c dn : ℚ)
    (hc : confidenceNorm d = some c) (hdn : daynightNorm d = some dn) :
    enhancedRiskScore hasFD d = some ((brightnessNorm d * (20 / 100) + c * (15 / 100)
      + frpNorm d * (20 / 100) + dn * (10 / 100)
      + humidityNorm d * (15 / 100) + windNorm d * (10 / 100)
      + precipNorm d * (5 / 100) + fireDangerNorm hasFD d * (5 / 100)) * 100) := by
  unfold enhancedRiskScore
  rw [hc, hdn]

/-- The base score is defined exactly when the confidence and day/night maps
both hit. -/
theorem baseRiskScore_isSome (d : FireDetection) :
    (baseRiskScore d).isSome ↔
      ((confidenceNorm d).isSome ∧ (daynightNorm d).isSome) := by
  unfold baseRiskScore
  cases confidenceNorm d <;> cases daynightNorm d <;> simp

/-- The enhanced score is defined exactly when the confidence and day/night
maps both hit (the weather features are always filled). -/
theorem enhancedRiskScore_isSome (hasFD : Bool) (d : FireDetection) :
    (enhancedRiskScore hasFD d).isSome ↔
      ((confidenceNorm d).isSome ∧ (daynightNorm d).isSome) := by
  unfold enhancedRiskScore
  cases confidenceNorm d <;> cases daynightNorm d <;> simp

/-- Every scored output row comes from scoring one input row, in base or
enhanced mode. -/
theorem scored_mem_cases (b : FireBatch) (sr : ScoredRow)
    (h : sr ∈ calculate_base_risk b ∨ sr ∈ calculate_enhanced_risk b) :
    (∃ d, d ∈ b.rows ∧ sr = scoreRowBase d) ∨
      (∃ d, d ∈ b.rows ∧ sr = scoreRowEnhanced b.hasFireDangerCol d) := by
  rcases h with h | h
  · left
    rcases List.mem_map.mp h with ⟨d, hd, hsr⟩
    exact ⟨d, hd, hsr.symm⟩
  · unfold calculate_enhanced_risk at h
    by_cases hw : hasWeather b = true
    · rw [if_pos hw] at h
      right
      rcases List.mem_map.mp h with ⟨d, hd, hsr⟩
      exact ⟨d, hd, hsr.symm⟩
    · rw [if_neg hw] at h
      left
      rcases List.mem_map.mp h with ⟨d, hd, hsr⟩
      exact ⟨d, hd, hsr.symm⟩

/-- In every scored output row the category column is the `pd.cut` of the
score column. -/
theorem risk_category_eq_cut (b : FireBatch) (sr : ScoredRow)
    (h : sr ∈ calculate_base_risk b ∨ sr ∈ calculate_enhanced_risk b) :
    sr.risk_category = sr.risk_score.bind categorize := by
  rcases scored_mem_cases b sr h with ⟨d, _, rfl⟩ | ⟨d, _, rfl⟩ <;> rfl

/-- Cut membership for the Low bucket is the right-closed interval (0, 30]. -/
theorem categorize_low_iff (q : ℚ) :
    categorize q = some RiskCategory.Low ↔ (0 < q ∧ q ≤ 30) := by
  unfold categorize
  constructor
  · intro h
    by_contra hc
    rw [if_neg hc] at h
    split_ifs at h <;> simp at h
  · intro h
    rw [if_pos h]

/-- Cut membership for the Moderate bucket is the right-closed interval
(30, 60]. -/
theorem categorize_moderate_iff (q : ℚ) :
    categorize q = some RiskCategory.Moderate ↔ (30 < q ∧ q ≤ 60) := by
  unfold categorize
  constructor
  · intro h
    split_ifs at h with h1 h2 h3
    · simp at h
    · exact h2
    · simp at h
  · intro h
    have h1 : ¬(0 < q ∧ q ≤ 30) := by
      rintro ⟨_, hb⟩
      linarith [h.1]
    rw [if_neg h1, if_pos h]

/-- Cut membership for the High bucket is the right-closed interval
(60, 100]. -/
theorem categorize_high_iff (q : ℚ) :
    categorize q = some RiskCategory.High ↔ (60 < q ∧ q ≤ 100) := by
  unfold categorize
  constructor
  · intro h
    split_ifs at h with h1 h2 h3
    · simp at h
    · simp at h
    · exact h3
  · intro h
    have h1 : ¬(0 < q ∧ q ≤ 30) := by
      rintro ⟨_, hb⟩
      linarith [h.1]
    have h2 : ¬(30 < q ∧ q ≤ 60) := by
      rintro ⟨_, hb⟩
      linarith [h.1]
    rw [if_neg h1, if_neg h2, if_pos h]

/-- Concrete evaluation in the real-arithmetic idealization: the base-mode
composite score of `dScore30` is exactly 30 (in IEEE doubles the program gets
30.000000000000004 instead, see `fBaseRiskScore_dScore30`). -/
theorem baseRiskScore_dScore30 : baseRiskScore dScore30 = some 30 := by
  have hc : confidenceNorm dScore30 = some 1 := by
    norm_num [confidenceNorm, dScore30]
  have hd : daynightNorm dScore30 = some (1 / 2) := by
    simp [daynightNorm, daynightMap, dScore30]
  rw [baseRiskScore_some dScore30 1 (1 / 2) hc hd]
  norm_num [brightnessNorm, frpNorm, clip01, dScore30]

/-- The nearest-even rounding returns the floor when the fractional part is
below one half. -/
theorem rne_eq_floor (q : ℚ) (f : ℤ) (hf : ⌊q⌋ = f) (hr : q - (f : ℚ) < 1 / 2) :
    rne q = f := by
  unfold rne
  rw [hf, if_pos hr]

/-- The nearest-even rounding returns the ceiling when the fractional part is
above one half. -/
theorem rne_eq_floor_add_one (q : ℚ) (f : ℤ) (hf : ⌊q⌋ = f)
    (hr : 1 / 2 < q - (f : ℚ)) : rne q = f + 1 := by
  unfold rne
  rw [hf, if_neg (not_lt.mpr hr.le), if_pos hr]

/-- At an exact tie the nearest-even rounding moves an odd floor up. -/
theorem rne_eq_tie_odd (q : ℚ) (f : ℤ) (hf : ⌊q⌋ = f) (hr : q - (f : ℚ) = 1 / 2)
    (ho : ¬ Even f) : rne q = f + 1 := by
  unfold rne
  rw [hf, if_neg (not_lt.mpr hr.ge), if_neg (not_lt.mpr hr.le), if_neg ho]

/-- Integers round to themselves. -/
theorem rne_intCast (n : ℤ) : rne (n : ℚ) = n := by
  unfold rne
  rw [Int.floor_intCast, if_pos (by norm_num)]

/-- Evaluation form of `roundDouble` on a positive value whose binade is
exhibited: scale by `2 ^ (52 - e)`, round the significand to nearest even,
scale back. -/
theorem roundDouble_eval_pos (x : ℚ) (e : ℤ) (hx : 0 < x)
    (h1 : (2 : ℚ) ^ e ≤ x) (h2 : x < (2 : ℚ) ^ (e + 1)) :
    roundDouble x = (rne (x * 2 ^ ((52 : ℤ) - e)) : ℚ) * 2 ^ (e - (52 : ℤ)) := by
  have hb : (1 : ℕ) < 2 := one_lt_two
  have h1a : ((2 : ℕ) : ℚ) ^ e ≤ x := by push_cast; exact h1
  have h2a : x < ((2 : ℕ) : ℚ) ^ (e + 1) := by push_cast; exact h2
  have hle := (Int.zpow_le_iff_le_log hb hx).mp h1a
  have hlt := (Int.lt_zpow_iff_log_lt hb hx).mp h2a
  have hlog : Int.log 2 x = e := by omega
  unfold roundDouble
  rw [if_neg (ne_of_gt hx), abs_of_pos hx, hlog]

/-- fl(0.3), the double nearest the literal 0.3. -/
theorem rd_w03 : roundDouble (3 / 10) = 5404319552844595 / 18014398509481984 := by
  rw [roundDouble_eval_pos (3 / 10) (-2) (by norm_num) (by norm_num) (by norm_num)]
  rw [show (3 / 10 : ℚ) * 2 ^ ((52 : ℤ) - (-2))
      = ((27021597764222976 : ℚ) / 5) by norm_num]
  rw [rne_eq_floor ((27021597764222976 : ℚ) / 5) 5404319552844595
    (by norm_num) (by norm_num)]
  norm_num

/-- fl(0.2), the double nearest the literal 0.2. -/
theorem rd_w02 : roundDouble (2 / 10) = 3602879701896397 / 18014398509481984 := by
  rw [roundDouble_eval_pos (2 / 10) (-3) (by norm_num) (by norm_num) (by norm_num)]
  rw [show (2 / 10 : ℚ) * 2 ^ ((52 : ℤ) - (-3))
      = ((36028797018963968 : ℚ) / 5) by norm_num]
  rw [rne_eq_floor_add_one ((36028797018963968 : ℚ) / 5) 7205759403792793
    (by norm_num) (by norm_num)]
  norm_num

/-- Zero is exact. -/
theorem rd_zero : roundDouble 0 = 0 := by
  unfold roundDouble
  rw [if_pos rfl]

/-- One is an exact double. -/
theorem rd_one : roundDouble 1 = 1 := by
  rw [roundDouble_eval_pos 1 0 (by norm_num) (by norm_num) (by norm_num)]
  rw [show (1 : ℚ) * 2 ^ ((52 : ℤ) - 0) = ((4503599627370496 : ℤ) : ℚ) by
    push_cast; norm_num]
  rw [rne_intCast]
  norm_num

/-- One half is an exact double. -/
theorem rd_half : roundDouble (1 / 2) = 1 / 2 := by
  rw [roundDouble_eval_pos (1 / 2) (-1) (by norm_num) (by norm_num) (by norm_num)]
  rw [show (1 / 2 : ℚ) * 2 ^ ((52 : ℤ) - (-1)) = ((4503599627370496 : ℤ) : ℚ) by
    push_cast; norm_num]
  rw [rne_intCast]
  norm_num

/-- 100 is an exact double. -/
theorem rd_hundred : roundDouble 100 = 100 := by
  rw [roundDouble_eval_pos 100 6 (by norm_num) (by norm_num) (by norm_num)]
  rw [show (100 : ℚ) * 2 ^ ((52 : ℤ) - 6) = ((7036874417766400 : ℤ) : ℚ) by
    push_cast; norm_num]
  rw [rne_intCast]
  norm_num

/-- fl(0.3) is itself a double. -/
theorem rd_w03val : roundDouble (5404319552844595 / 18014398509481984 : ℚ)
    = 5404319552844595 / 18014398509481984 := by
  rw [roundDouble_eval_pos _ (-2) (by norm_num) (by norm_num) (by norm_num)]
  rw [show (5404319552844595 / 18014398509481984 : ℚ) * 2 ^ ((52 : ℤ) - (-2))
      = ((5404319552844595 : ℤ) : ℚ) by push_cast; norm_num]
  rw [rne_intCast]
  norm_num

/-- fl(0.2) is itself a double. -/
theorem rd_w02val : roundDouble (3602879701896397 / 18014398509481984 : ℚ)
    = 3602879701896397 / 18014398509481984 := by
  rw [roundDouble_eval_pos _ (-3) (by norm_num) (by norm_num) (by norm_num)]
  rw [show (3602879701896397 / 18014398509481984 : ℚ) * 2 ^ ((52 : ℤ) - (-3))
      = ((7205759403792794 : ℤ) : ℚ) by push_cast; norm_num]
  rw [rne_intCast]
  norm_num

/-- fl(0.1) (which is exactly half of fl(0.2)) is itself a double. -/
theorem rd_fl01 : roundDouble (3602879701896397 / 36028797018963968 : ℚ)
    = 3602879701896397 / 36028797018963968 := by
  rw [roundDouble_eval_pos _ (-4) (by norm_num) (by norm_num) (by norm_num)]
  rw [show (3602879701896397 / 36028797018963968 : ℚ) * 2 ^ ((52 : ℤ) - (-4))
      = ((7205759403792794 : ℤ) : ℚ) by push_cast; norm_num]
  rw [rne_intCast]
  norm_num

/-- The exact sum 0.5 + fl(0.1) rounds down to fl(0.6). -/
theorem rd_fl06 : roundDouble (21617278211378381 / 36028797018963968 : ℚ)
    = 5404319552844595 / 9007199254740992 := by
  rw [roundDouble_eval_pos _ (-1) (by norm_num) (by norm_num) (by norm_num)]
  rw [show (21617278211378381 / 36028797018963968 : ℚ) * 2 ^ ((52 : ℤ) - (-1))
      = ((21617278211378381 : ℚ) / 4) by norm_num]
  rw [rne_eq_floor ((21617278211378381 : ℚ) / 4) 5404319552844595
    (by norm_num) (by norm_num)]
  norm_num

/-- The exact product fl(0.6) * 100 rounds up to exactly 60. -/
theorem rd_sixty : roundDouble (135107988821114875 / 2251799813685248 : ℚ) = 60 := by
  rw [roundDouble_eval_pos _ 5 (by norm_num) (by norm_num) (by norm_num)]
  rw [show (135107988821114875 / 2251799813685248 : ℚ) * 2 ^ ((52 : ℤ) - 5)
      = ((135107988821114875 : ℚ) / 16) by norm_num]
  rw [rne_eq_floor_add_one ((135107988821114875 : ℚ) / 16) 8444249301319679
    (by norm_num) (by norm_num)]
  norm_num

/-- The exact sum fl(0.2) + fl(0.1) is a tie at an odd significand and rounds
up to the double 0.30000000000000004 — the classic 0.2 + 0.1 example. -/
theorem rd_sum03 : roundDouble (10808639105689191 / 36028797018963968 : ℚ)
    = 1351079888211149 / 4503599627370496 := by
  rw [roundDouble_eval_pos _ (-2) (by norm_num) (by norm_num) (by norm_num)]
  rw [show (10808639105689191 / 36028797018963968 : ℚ) * 2 ^ ((52 : ℤ) - (-2))
      = ((10808639105689191 : ℚ) / 2) by norm_num]
  rw [rne_eq_tie_odd ((10808639105689191 : ℚ) / 2) 5404319552844595
    (by norm_num) (by norm_num) (by decide)]
  norm_num

/-- The exact product 0.30000000000000004 * 100 rounds down to the double
30.000000000000004. -/
theorem rd_thirtyeps : roundDouble (33776997205278725 / 1125899906842624 : ℚ)
    = 8444249301319681 / 281474976710656 := by
  rw [roundDouble_eval_pos _ 4 (by norm_num) (by norm_num) (by norm_num)]
  rw [show (33776997205278725 / 1125899906842624 : ℚ) * 2 ^ ((52 : ℤ) - 4)
      = ((33776997205278725 : ℚ) / 4) by norm_num]
  rw [rne_eq_floor ((33776997205278725 : ℚ) / 4) 8444249301319681
    (by norm_num) (by norm_num)]
  norm_num

/-- Unfolding of the bit-accurate base score when both mapped features are
defined. -/
theorem fBaseRiskScore_some (d : FireDetection) (c dn : ℚ)
    (hc : fConfidenceNorm d = some c) (hdn : fDaynightNorm d = some dn) :
    fBaseRiskScore d = some (fmul (fadd (fadd (fadd
      (fmul (fBrightnessNorm d) (dbl (3 / 10)))
      (fmul c (dbl (2 / 10))))
      (fmul (fFrpNorm d) (dbl (3 / 10))))
      (fmul dn (dbl (2 / 10)))) 100) := by
  unfold fBaseRiskScore
  rw [hc, hdn]

/-- Concrete IEEE evaluation: the program computes composite score exactly
60.0 for the detection `d60`. -/
theorem fBaseRiskScore_d60 : fBaseRiskScore d60 = some 60 := by
  have hcn : fConfidenceNorm d60 = some 1 := by
    show some (fdiv 100 100) = some 1
    unfold fdiv
    rw [show (100 : ℚ) / 100 = 1 by norm_num, rd_one]
  have hdn : fDaynightNorm d60 = some (1 / 2) := by
    simp [fDaynightNorm, daynightMap, d60]
  have hbn : fBrightnessNorm d60 = 1 := by
    unfold fBrightnessNorm fsub fdiv
    rw [show d60.bright_ti4 - 300 = (100 : ℚ) by norm_num [d60], rd_hundred,
      show (100 : ℚ) / 100 = 1 by norm_num, rd_one]
    norm_num [clip01]
  have hfn : fFrpNorm d60 = 0 := by
    unfold fFrpNorm fdiv
    rw [show d60.frp / 500 = (0 : ℚ) by norm_num [d60], rd_zero]
    norm_num [clip01]
  rw [fBaseRiskScore_some d60 1 (1 / 2) hcn hdn, hbn, hfn]
  have hw03 : dbl (3 / 10) = (5404319552844595 / 18014398509481984 : ℚ) := rd_w03
  have hw02 : dbl (2 / 10) = (3602879701896397 / 18014398509481984 : ℚ) := rd_w02
  rw [hw03, hw02]
  have s1 : fmul 1 (5404319552844595 / 18014398509481984 : ℚ)
      = 5404319552844595 / 18014398509481984 := by
    unfold fmul
    rw [one_mul]
    exact rd_w03val
  have s2 : fmul 1 (3602879701896397 / 18014398509481984 : ℚ)
      = 3602879701896397 / 18014398509481984 := by
    unfold fmul
    rw [one_mul]
    exact rd_w02val
  have s4 : fmul 0 (5404319552844595 / 18014398509481984 : ℚ) = 0 := by
    unfold fmul
    rw [zero_mul]
    exact rd_zero
  have s6 : fmul (1 / 2 : ℚ) (3602879701896397 / 18014398509481984)
      = 3602879701896397 / 36028797018963968 := by
    unfold fmul
    rw [show (1 / 2 : ℚ) * (3602879701896397 / 18014398509481984)
        = 3602879701896397 / 36028797018963968 by norm_num]
    exact rd_fl01
  have s3 : fadd (5404319552844595 / 18014398509481984 : ℚ)
      (3602879701896397 / 18014398509481984) = 1 / 2 := by
    unfold fadd
    rw [show (5404319552844595 / 18014398509481984 : ℚ)
        + 3602879701896397 / 18014398509481984 = 1 / 2 by norm_num]
    exact rd_half
  have s5 : fadd (1 / 2 : ℚ) 0 = 1 / 2 := by
    unfold fadd
    rw [add_zero]
    exact rd_half
  have s7 : fadd (1 / 2 : ℚ) (3602879701896397 / 36028797018963968)
      = 5404319552844595 / 9007199254740992 := by
    unfold fadd
    rw [show (1 / 2 : ℚ) + 3602879701896397 / 36028797018963968
        = 21617278211378381 / 36028797018963968 by norm_num]
    exact rd_fl06
  have s8 : fmul (5404319552844595 / 9007199254740992 : ℚ) 100 = 60 := by
    unfold fmul
    rw [show (5404319552844595 / 9007199254740992 : ℚ) * 100
        = 135107988821114875 / 2251799813685248 by norm_num]
    exact rd_sixty
  rw [s1, s2, s4, s6, s3, s5, s7, s8]

/-- Concrete IEEE evaluation: the program computes composite score
30.000000000000004 (not 30) for `dScore30`, reproducing the classic
0.2 + 0.1 = 0.30000000000000004 rounding — so this detection sits strictly
inside the Moderate bucket. -/
theorem fBaseRiskScore_dScore30 :
    fBaseRiskScore dScore30 = some (8444249301319681 / 281474976710656) := by
  have hcn : fConfidenceNorm dScore30 = some 1 := by
    show some (fdiv 100 100) = some 1
    unfold fdiv
    rw [show (100 : ℚ) / 100 = 1 by norm_num, rd_one]
  have hdn : fDaynightNorm dScore30 = some (1 / 2) := by
    simp [fDaynightNorm, daynightMap, dScore30]
  have hbn : fBrightnessNorm dScore30 = 0 := by
    unfold fBrightnessNorm fsub fdiv
    rw [show dScore30.bright_ti4 - 300 = (0 : ℚ) by norm_num [dScore30], rd_zero,
      show (0 : ℚ) / 100 = 0 by norm_num, rd_zero]
    norm_num [clip01]
  have hfn : fFrpNorm dScore30 = 0 := by
    unfold fFrpNorm fdiv
    rw [show dScore30.frp / 500 = (0 : ℚ) by norm_num [dScore30], rd_zero]
    norm_num [clip01]
  rw [fBaseRiskScore_some dScore30 1 (1 / 2) hcn hdn, hbn, hfn]
  have hw03 : dbl (3 / 10) = (5404319552844595 / 18014398509481984 : ℚ) := rd_w03
  have hw02 : dbl (2 / 10) = (3602879701896397 / 18014398509481984 : ℚ) := rd_w02
  rw [hw03, hw02]
  have s1 : fmul 0 (5404319552844595 / 18014398509481984 : ℚ) = 0 := by
    unfold fmul
    rw [zero_mul]
    exact rd_zero
  have s2 : fmul 1 (3602879701896397 / 18014398509481984 : ℚ)
      = 3602879701896397 / 18014398509481984 := by
    unfold fmul
    rw [one_mul]
    exact rd_w02val
  have s6 : fmul (1 / 2 : ℚ) (3602879701896397 / 18014398509481984)
      = 3602879701896397 / 36028797018963968 := by
    unfold fmul
    rw [show (1 / 2 : ℚ) * (3602879701896397 / 18014398509481984)
        = 3602879701896397 / 36028797018963968 by norm_num]
    exact rd_fl01
  have s3 : fadd 0 (3602879701896397 / 18014398509481984 : ℚ)
      = 3602879701896397 / 18014398509481984 := by
    unfold fadd
    rw [zero_add]
    exact rd_w02val
  have s5 : fadd (3602879701896397 / 18014398509481984 : ℚ) 0
      = 3602879701896397 / 18014398509481984 := by
    unfold fadd
    rw [add_zero]
    exact rd_w02val
  have s7 : fadd (3602879701896397 / 18014398509481984 : ℚ)
      (3602879701896397 / 36028797018963968)
      = 1351079888211149 / 4503599627370496 := by
    unfold fadd
    rw [show (3602879701896397 / 18014398509481984 : ℚ)
        + 3602879701896397 / 36028797018963968
        = 10808639105689191 / 36028797018963968 by norm_num]
    exact rd_sum03
  have s8 : fmul (1351079888211149 / 4503599627370496 : ℚ) 100
      = 8444249301319681 / 281474976710656 := by
    unfold fmul
    rw [show (1351079888211149 / 4503599627370496 : ℚ) * 100
        = 33776997205278725 / 1125899906842624 by norm_num]
    exact rd_thirtyeps
  rw [s1, s2, s6, s3, s5, s7, s8]

/-- Every bit-accurate scored output row comes from scoring one input row, in
base or enhanced mode. -/
theorem scored_mem_cases_fp (b : FireBatch) (sr : ScoredRow)
    (h : sr ∈ calculate_base_risk_fp b ∨ sr ∈ calculate_enhanced_risk_fp b) :
    (∃ d, d ∈ b.rows ∧ sr = fScoreRowBase d) ∨
      (∃ d, d ∈ b.rows ∧ sr = fScoreRowEnhanced b.hasFireDangerCol d) := by
  rcases h with h | h
  · left
    rcases List.mem_map.mp h with ⟨d, hd, hsr⟩
    exact ⟨d, hd, hsr.symm⟩
  · unfold calculate_enhanced_risk_fp at h
    by_cases hw : hasWeather b = true
    · rw [if_pos hw] at h
      right
      rcases List.mem_map.mp h with ⟨d, hd, hsr⟩
      exact ⟨d, hd, hsr.symm⟩
    · rw [if_neg hw] at h
      left
      rcases List.mem_map.mp h with ⟨d, hd, hsr⟩
      exact ⟨d, hd, hsr.symm⟩

/-- In every bit-accurate scored output row the category column is the
`pd.cut` of the score column. -/
theorem risk_category_eq_cut_fp (b : FireBatch) (sr : ScoredRow)
    (h : sr ∈ calculate_base_risk_fp b ∨ sr ∈ calculate_enhanced_risk_fp b) :
    sr.risk_category = sr.risk_score.bind categorize := by
  rcases scored_mem_cases_fp b sr h with ⟨d, _, rfl⟩ | ⟨d, _, rfl⟩ <;> rfl

/-- C1 counterexample: the realistic detection `d60` (400 K, numeric
confidence 100, frp 0, daytime) receives — in the IEEE-double arithmetic the
program actually performs — composite risk score exactly 60.0, and `pd.cut`
assigns it category Moderate, while the claim requires a score of exactly 60
to be High ([60,100] iff High). -/
theorem C1_buckets_counterexample :
    (calculate_base_risk_fp cexBatch60).map ScoredRow.risk_score = [some 60] ∧
    (calculate_base_risk_fp cexBatch60).map ScoredRow.risk_category
      = [some RiskCategory.Moderate] := by
  have hcat : categorize 60 = some RiskCategory.Moderate :=
    (categorize_moderate_iff 60).mpr (by norm_num)
  constructor
  · simp [calculate_base_risk_fp, cexBatch60, fScoreRowBase, fBaseRiskScore_d60]
  · simp [calculate_base_risk_fp, cexBatch60, fScoreRowBase, fBaseRiskScore_d60, hcat]

/-- C1 (amended): for every scored detection, in base and enhanced mode, the
risk category is determined from the computed (IEEE-double) composite score by
the right-closed buckets of the `pd.cut`: (0,30] iff Low, (30,60] iff
Moderate, (60,100] iff High; in particular a computed score of exactly 30 is
Low, exactly 60 is Moderate, and exactly 0 receives no category at all. -/
theorem C1_buckets_amended (b : FireBatch) (sr : ScoredRow)
    (hmem : sr ∈ calculate_base_risk_fp b ∨ sr ∈ calculate_enhanced_risk_fp b)
    (q : ℚ) (hq : sr.risk_score = some q) :
    (sr.risk_category = some RiskCategory.Low ↔ (0 < q ∧ q ≤ 30)) ∧
    (sr.risk_category = some RiskCategory.Moderate ↔ (30 < q ∧ q ≤ 60)) ∧
    (sr.risk_category = some RiskCategory.High ↔ (60 < q ∧ q ≤ 100)) := by
  have hcat := risk_category_eq_cut_fp b sr hmem
  rw [hq] at hcat
  rw [hcat]
  exact ⟨categorize_low_iff q, categorize_moderate_iff q, categorize_high_iff q⟩

/-- C1 witness: the amended bucket correspondence evaluated on the concrete
one-detection batch whose IEEE-double score is exactly 60 (categorized
Moderate). -/
theorem C1_buckets_amended_witness :
    ((fScoreRowBase d60).risk_category = some RiskCategory.Low
        ↔ ((0 : ℚ) < 60 ∧ (60 : ℚ) ≤ 30)) ∧
    ((fScoreRowBase d60).risk_category = some RiskCategory.Moderate
        ↔ ((30 : ℚ) < 60 ∧ (60 : ℚ) ≤ 60)) ∧
    ((fScoreRowBase d60).risk_category = some RiskCategory.High
        ↔ ((60 : ℚ) < 60 ∧ (60 : ℚ) ≤ 100)) :=
  C1_buckets_amended cexBatch60 (fScoreRowBase d60)
    (Or.inl (by simp [calculate_base_risk_fp, cexBatch60]))
    60 fBaseRiskScore_d60

/-- C2: code behavior at the failing input.  When the historical store raises
(the `Except.error` input), `identify_persistent_anomalies` catches the
exception and returns an empty result, indistinguishable from a successful
analysis that found no anomalies — it does not surface a `DataUnavailable`
failure to the caller. -/
theorem C2_unreachable_store_returns_empty :
    identify_persistent_anomalies
      (Except.error ("unable to open database file")) 0 (2 / 5) 5 = [] := rfl

/-- C6: a batch lacking any of the humidity, wind-speed or
precipitation-probability columns makes the enhanced scorer fall back, and its
output is identical to the base scorer on the same batch. -/
theorem C6_weather_fallback (b : FireBatch)
    (h : b.hasHumidityCol = false ∨ b.hasWindCol = false ∨ b.hasPrecipCol = false) :
    calculate_enhanced_risk b = calculate_base_risk b := by
  have hw : ¬(hasWeather b = true) := by
    unfold hasWeather
    rcases h with h | h | h <;> simp [h]
  unfold calculate_enhanced_risk
  rw [if_neg hw]

/-- C6 witness: the fallback evaluated on the concrete batch missing its
wind-speed column. -/
theorem C6_weather_fallback_witness :
    calculate_enhanced_risk wBatchC6 = calculate_base_risk wBatchC6 :=
  C6_weather_fallback wBatchC6 (Or.inr (Or.inl rfl))

/-- C4 counterexample: the detection `dBadConf` carries an unrecognized
categorical confidence value; in both modes the scorer leaves its score NaN
and assigns it no risk category at all, instead of substituting a neutral
default. -/
theorem C4_totality_counterexample :
    (calculate_base_risk cexBatchC4).map ScoredRow.risk_category = [none] ∧
    (calculate_enhanced_risk cexBatchC4).map ScoredRow.risk_category = [none] ∧
    (calculate_enhanced_risk cexBatchC4).map ScoredRow.risk_score = [none] := by
  have hc : confidenceNorm dBadConf = none := by
    simp [confidenceNorm, dBadConf, confidenceMap]
  have hb : baseRiskScore dBadConf = none := by
    unfold baseRiskScore
    rw [hc]
  have he : enhancedRiskScore false dBadConf = none := by
    unfold enhancedRiskScore
    rw [hc]
  refine ⟨?_, ?_, ?_⟩ <;>
    simp [calculate_base_risk, calculate_enhanced_risk, hasWeather, cexBatchC4,
      scoreRowBase, scoreRowEnhanced, hb, he]

/-- C4 (amended): the scorer is total — it emits exactly one scored row per
input detection, in input order, and never raises; a missing weather sub-field
is replaced by its neutral fill and never makes the score undefined; but a
detection whose confidence or day/night value is unrecognized (or missing)
gets an undefined (NaN) score — and hence no risk category — rather than a
neutral default. -/
theorem C4_totality_amended (b : FireBatch) (sr : ScoredRow)
    (hmem : sr ∈ calculate_base_risk b ∨ sr ∈ calculate_enhanced_risk b) :
    ((calculate_base_risk b).map ScoredRow.det = b.rows ∧
     (calculate_enhanced_risk b).map ScoredRow.det = b.rows) ∧
    (sr.risk_score.isSome ↔
      ((confidenceNorm sr.det).isSome ∧ (daynightNorm sr.det).isSome)) := by
  constructor
  · have hbase : (calculate_base_risk b).map ScoredRow.det = b.rows := by
      unfold calculate_base_risk
      rw [List.map_map, show ScoredRow.det ∘ scoreRowBase = id from funext fun d => rfl,
        List.map_id]
    refine ⟨hbase, ?_⟩
    unfold calculate_enhanced_risk
    split
    · rw [List.map_map,
        show ScoredRow.det ∘ scoreRowEnhanced b.hasFireDangerCol = id from
          funext fun d => rfl,
        List.map_id]
    · exact hbase
  · rcases scored_mem_cases b sr hmem with ⟨d, _, rfl⟩ | ⟨d, _, rfl⟩
    · exact baseRiskScore_isSome d
    · exact enhancedRiskScore_isSome b.hasFireDangerCol d

/-- C4 witness: totality evaluated on the concrete one-detection batch with
the maximal-score detection (recognized confidence and daynight values). -/
theorem C4_totality_amended_witness :
    ((calculate_base_risk wBatchC6).map ScoredRow.det = wBatchC6.rows ∧
     (calculate_enhanced_risk wBatchC6).map ScoredRow.det = wBatchC6.rows) ∧
    ((scoreRowBase dScoreHigh).risk_score.isSome ↔
      ((confidenceNorm (scoreRowBase dScoreHigh).det).isSome ∧
       (daynightNorm (scoreRowBase dScoreHigh).det).isSome)) :=
  C4_totality_amended wBatchC6 (scoreRowBase dScoreHigh)
    (Or.inl (by simp [calculate_base_risk, wBatchC6]))

/-- Clipping to [0,1] is monotone. -/
theorem clip01_mono {a b : ℚ} (h : a ≤ b) : clip01 a ≤ clip01 b :=
  min_le_min (le_refl 1) (max_le_max (le_refl 0) h)

/-- C7: with every feature other than fire radiative power held fixed, a
larger `frp` never yields a strictly smaller composite risk score, in base
mode and in enhanced mode alike (the `frp` weight is nonnegative and the
normalization is monotone). -/
theorem C7_frp_monotone (hasFD : Bool) (d1 d2 : FireDetection) (s1 s2 t1 t2 : ℚ)
    (hb : d1.bright_ti4 = d2.bright_ti4)
    (hc : d1.confidence = d2.confidence)
    (hdn : d1.daynight = d2.daynight)
    (hh : d1.relative_humidity = d2.relative_humidity)
    (hw : d1.wind_speed_kmh = d2.wind_speed_kmh)
    (hp : d1.precip_probability = d2.precip_probability)
    (hfd : d1.fire_danger_index = d2.fire_danger_index)
    (hfrp : d1.frp ≤ d2.frp)
    (h1 : baseRiskScore d1 = some s1) (h2 : baseRiskScore d2 = some s2)
    (h3 : enhancedRiskScore hasFD d1 = some t1)
    (h4 : enhancedRiskScore hasFD d2 = some t2) :
    s1 ≤ s2 ∧ t1 ≤ t2 := by
  have hcn : confidenceNorm d1 = confidenceNorm d2 := by
    unfold confidenceNorm
    rw [hc]
  have hdn2 : daynightNorm d1 = daynightNorm d2 := by
    unfold daynightNorm
    rw [hdn]
  have hbn : brightnessNorm d1 = brightnessNorm d2 := by
    unfold brightnessNorm
    rw [hb]
  have hfn : frpNorm d1 ≤ frpNorm d2 :=
    clip01_mono ((div_le_div_iff_of_pos_right (by norm_num : (0 : ℚ) < 500)).mpr hfrp)
  have hhn : humidityNorm d1 = humidityNorm d2 := by
    unfold humidityNorm
    rw [hh]
  have hwn : windNorm d1 = windNorm d2 := by
    unfold windNorm
    rw [hw]
  have hpn : precipNorm d1 = precipNorm d2 := by
    unfold precipNorm
    rw [hp]
  have hfdn : fireDangerNorm hasFD d1 = fireDangerNorm hasFD d2 := by
    unfold fireDangerNorm
    rw [hfd]
  cases hcv : confidenceNorm d2 with
  | none =>
      have hs : (baseRiskScore d2).isSome := by
        rw [h2]
        rfl
      rw [baseRiskScore_isSome, hcv] at hs
      simp at hs
  | some c =>
      cases hdv : daynightNorm d2 with
      | none =>
          have hs : (baseRiskScore d2).isSome := by
            rw [h2]
            rfl
          rw [baseRiskScore_isSome, hdv] at hs
          simp at hs
      | some dn =>
          rw [baseRiskScore_some d2 c dn hcv hdv] at h2
          rw [enhancedRiskScore_some hasFD d2 c dn hcv hdv] at h4
          have h1e : baseRiskScore d1 = some ((brightnessNorm d1 * (3 / 10)
              + c * (2 / 10) + frpNorm d1 * (3 / 10) + dn * (2 / 10)) * 100) :=
            baseRiskScore_some d1 c dn (hcn.trans hcv) (hdn2.trans hdv)
          have h3e : enhancedRiskScore hasFD d1
              = some ((brightnessNorm d1 * (20 / 100) + c * (15 / 100)
                + frpNorm d1 * (20 / 100) + dn * (10 / 100)
                + humidityNorm d1 * (15 / 100) + windNorm d1 * (10 / 100)
                + precipNorm d1 * (5 / 100)
                + fireDangerNorm hasFD d1 * (5 / 100)) * 100) :=
            enhancedRiskScore_some hasFD d1 c dn (hcn.trans hcv) (hdn2.trans hdv)
          rw [h1e] at h1
          rw [h3e] at h3
          have e1 := Option.some.inj h1
          have e2 := Option.some.inj h2
          have e3 := Option.some.inj h3
          have e4 := Option.some.inj h4
          constructor
          · rw [← e1, ← e2]
            nlinarith [hfn, hbn]
          · rw [← e3, ← e4]
            nlinarith [hfn, hbn, hhn, hwn, hpn, hfdn]

/-- Concrete evaluation: base score of `dFrp100` (frp 100 MW) is 36. -/
theorem baseRiskScore_dFrp100 : baseRiskScore dFrp100 = some 36 := by
  have hc : confidenceNorm dFrp100 = some 1 := by
    norm_num [confidenceNorm, dFrp100, dScore30]
  have hd : daynightNorm dFrp100 = some (1 / 2) := by
    simp [daynightNorm, daynightMap, dFrp100, dScore30]
  rw [baseRiskScore_some dFrp100 1 (1 / 2) hc hd]
  norm_num [brightnessNorm, frpNorm, clip01, dFrp100, dScore30]

/-- Concrete evaluation: enhanced score of `dScore30` (neutral weather fills,
no fire-danger column) is 35. -/
theorem enhancedRiskScore_dScore30 : enhancedRiskScore false dScore30 = some 35 := by
  have hc : confidenceNorm dScore30 = some 1 := by
    norm_num [confidenceNorm, dScore30]
  have hd : daynightNorm dScore30 = some (1 / 2) := by
    simp [daynightNorm, daynightMap, dScore30]
  rw [enhancedRiskScore_some false dScore30 1 (1 / 2) hc hd]
  norm_num [brightnessNorm, frpNorm, humidityNorm, windNorm, precipNorm,
    fireDangerNorm, clip01, dScore30]

/-- Concrete evaluation: enhanced score of `dFrp100` is 39. -/
theorem enhancedRiskScore_dFrp100 : enhancedRiskScore false dFrp100 = some 39 := by
  have hc : confidenceNorm dFrp100 = some 1 := by
    norm_num [confidenceNorm, dFrp100, dScore30]
  have hd : daynightNorm dFrp100 = some (1 / 2) := by
    simp [daynightNorm, daynightMap, dFrp100, dScore30]
  rw [enhancedRiskScore_some false dFrp100 1 (1 / 2) hc hd]
  norm_num [brightnessNorm, frpNorm, humidityNorm, windNorm, precipNorm,
    fireDangerNorm, clip01, dFrp100, dScore30]

/-- C7 witness: monotonicity evaluated on the two concrete detections that
differ only in frp (0 MW scoring 30 base / 35 enhanced, 100 MW scoring 36
base / 39 enhanced). -/
theorem C7_frp_monotone_witness : (30 : ℚ) ≤ 36 ∧ (35 : ℚ) ≤ 39 :=
  C7_frp_monotone false dScore30 dFrp100 30 36 35 39
    rfl rfl rfl rfl rfl rfl rfl
    (by norm_num [dScore30, dFrp100])
    baseRiskScore_dScore30 baseRiskScore_dFrp100
    enhancedRiskScore_dScore30 enhancedRiskScore_dFrp100

/-- Splitting a list by a boolean mask and its negation preserves the total
length. -/
theorem length_filter_not_add_length_filter {α : Type} (l : List α) (p : α → Bool) :
    (l.filter fun a => !(p a)).length + (l.filter p).length = l.length := by
  induction l with
  | nil => rfl
  | cons a t ih =>
      cases h : p a <;> simp [List.filter_cons, h] <;> omega

/-- A nonempty list is not `isEmpty`. -/
theorem isEmpty_eq_false_of_ne_nil {α : Type} {l : List α} (h : l ≠ []) :
    l.isEmpty = false := by
  cases l with
  | nil => exact absurd rfl h
  | cons a t => rfl

/-- C5: against a non-empty persistent-location set, `filter_fires` is an
exhaustive and disjoint partition of the batch: the two output lengths sum to
the input length, every input detection lands in exactly one output, both
outputs draw only from the input, and (when identifiers are unique in the
batch) the two outputs are disjoint by identifier. -/
theorem C5_partition (fires : List FireDet) (P : List ProjPoint) (bufferKm : ℚ)
    (hP : P ≠ []) :
    ((filter_fires fires P bufferKm).1.length
        + (filter_fires fires P bufferKm).2.length = fires.length) ∧
    (∀ d ∈ fires,
      (d ∈ (filter_fires fires P bufferKm).1 ∧ d ∉ (filter_fires fires P bufferKm).2) ∨
      (d ∈ (filter_fires fires P bufferKm).2 ∧ d ∉ (filter_fires fires P bufferKm).1)) ∧
    (∀ d ∈ (filter_fires fires P bufferKm).1, d ∈ fires) ∧
    (∀ d ∈ (filter_fires fires P bufferKm).2, d ∈ fires) ∧
    ((fires.map FireDet.fire_id).Nodup →
      ∀ i ∈ (filter_fires fires P bufferKm).1.map FireDet.fire_id,
        i ∉ (filter_fires fires P bufferKm).2.map FireDet.fire_id) := by
  have hPe : P.isEmpty = false := isEmpty_eq_false_of_ne_nil hP
  unfold filter_fires
  rw [hPe]
  simp only [Bool.false_eq_true, if_false]
  refine ⟨length_filter_not_add_length_filter fires _, ?_, ?_, ?_, ?_⟩
  · intro d hd
    cases h : isIndustrial P bufferKm d.pt with
    | false =>
        left
        constructor
        · rw [List.mem_filter]
          exact ⟨hd, by rw [h]; rfl⟩
        · rw [List.mem_filter]
          rintro ⟨-, hind⟩
          rw [h] at hind
          exact Bool.false_ne_true hind
    | true =>
        right
        constructor
        · rw [List.mem_filter]
          exact ⟨hd, h⟩
        · rw [List.mem_filter]
          rintro ⟨-, hind⟩
          rw [h] at hind
          simp at hind
  · intro d hd
    exact (List.mem_filter.mp hd).1
  · intro d hd
    exact (List.mem_filter.mp hd).1
  · intro hnod i hi hic
    rcases List.mem_map.mp hi with ⟨d1, hd1, rfl⟩
    rcases List.mem_map.mp hic with ⟨d2, hd2, hid⟩
    rw [List.mem_filter] at hd1 hd2
    have heq : d2 = d1 :=
      List.inj_on_of_nodup_map hnod hd2.1 hd1.1 hid
    rw [heq] at hd2
    have h1 := hd1.2
    have h2 := hd2.2
    rw [Bool.not_eq_true'] at h1
    rw [h1] at h2
    exact Bool.false_ne_true h2

/-- C5 witness: the partition evaluated on a concrete two-detection batch
against one persistent location with a 1 km buffer. -/
theorem C5_partition_witness :
    ((filter_fires [fNear, fFar] [pOrigin] 1).1.length
        + (filter_fires [fNear, fFar] [pOrigin] 1).2.length
        = ([fNear, fFar] : List FireDet).length) ∧
    (∀ d ∈ ([fNear, fFar] : List FireDet),
      (d ∈ (filter_fires [fNear, fFar] [pOrigin] 1).1 ∧
        d ∉ (filter_fires [fNear, fFar] [pOrigin] 1).2) ∨
      (d ∈ (filter_fires [fNear, fFar] [pOrigin] 1).2 ∧
        d ∉ (filter_fires [fNear, fFar] [pOrigin] 1).1)) ∧
    (∀ d ∈ (filter_fires [fNear, fFar] [pOrigin] 1).1, d ∈ ([fNear, fFar] : List FireDet)) ∧
    (∀ d ∈ (filter_fires [fNear, fFar] [pOrigin] 1).2, d ∈ ([fNear, fFar] : List FireDet)) ∧
    ((([fNear, fFar] : List FireDet).map FireDet.fire_id).Nodup →
      ∀ i ∈ (filter_fires [fNear, fFar] [pOrigin] 1).1.map FireDet.fire_id,
        i ∉ (filter_fires [fNear, fFar] [pOrigin] 1).2.map FireDet.fire_id) :=
  C5_partition [fNear, fFar] [pOrigin] 1 (by simp)

/-- C10: a detection whose projected point is at least the buffer radius from
every persistent location — in particular one lying exactly on the boundary of
the buffered union, at distance exactly `buffer_km` from the nearest persistent
location — is not `within` the union (shapely `within` tests interior
containment), so it is retained as a wildfire, not excluded as industrial. -/
theorem C10_boundary_retained (fires : List FireDet) (P : List ProjPoint)
    (bufferKm : ℚ) (hP : P ≠ []) (d : FireDet) (hd : d ∈ fires)
    (hfar : ∀ c ∈ P, (bufferKm * 1000) ^ 2 ≤ distSq d.pt c)
    (hbd : ∃ c ∈ P, distSq d.pt c = (bufferKm * 1000) ^ 2) :
    d ∈ (filter_fires fires P bufferKm).1 ∧
      d ∉ (filter_fires fires P bufferKm).2 := by
  have hind : isIndustrial P bufferKm d.pt = false := by
    unfold isIndustrial
    rw [List.any_eq_false]
    intro c hc
    simp only [decide_eq_true_eq]
    exact not_lt.mpr (hfar c hc)
  have hPe : P.isEmpty = false := isEmpty_eq_false_of_ne_nil hP
  unfold filter_fires
  rw [hPe]
  simp only [Bool.false_eq_true, if_false]
  constructor
  · rw [List.mem_filter]
    exact ⟨hd, by rw [hind]; rfl⟩
  · rw [List.mem_filter]
    rintro ⟨-, h⟩
    rw [hind] at h
    exact Bool.false_ne_true h

/-- C10 witness: the boundary rule evaluated on a concrete detection exactly
1000 m from the single persistent location, with a 1 km buffer. -/
theorem C10_boundary_retained_witness :
    fBoundary ∈ (filter_fires [fBoundary, fNear] [pOrigin] 1).1 ∧
      fBoundary ∉ (filter_fires [fBoundary, fNear] [pOrigin] 1).2 :=
  C10_boundary_retained [fBoundary, fNear] [pOrigin] 1 (by simp) fBoundary
    (by simp)
    (by
      intro c hc
      rw [List.mem_singleton] at hc
      rw [hc]
      norm_num [distSq, fBoundary, pOrigin])
    ⟨pOrigin, by simp, by norm_num [distSq, fBoundary, pOrigin]⟩

/-- C3 counterexample: dissolving the concrete one-row scored batch (which has
a `fire_id` column) yields a zone that still carries `fire_id = 1` — the code
re-inserts `fire_id` into `buffer_cols` whenever the input has it, so it is
false that no output row carries a per-detection identifier. -/
theorem C3_dissolve_counterexample :
    ¬ (∀ z ∈ create_risk_buffers cexBatchC3 true, z.fire_id = none) := by
  intro h
  have hout : create_risk_buffers cexBatchC3 true
      = [{ risk_category := some RiskCategory.Low, fire_id := some 1 },
         { risk_category := some RiskCategory.Moderate, fire_id := none },
         { risk_category := some RiskCategory.High, fire_id := none }] := by
    simp [create_risk_buffers, cexBatchC3, dissolveByCategory, categoryLevels,
      srLow, dScore30, List.find?]
  have h2 := h { risk_category := some RiskCategory.Low, fire_id := some 1 }
    (by rw [hout]; exact List.mem_cons_self _ _)
  simp at h2

/-- C3 (amended): the dissolved output is partitioned by the category levels
alone — exactly one zone per level of the categorical `risk_category` column,
in order Low, Moderate, High, no two zones sharing a category — but when the
input frame has a `fire_id` column a zone whose category occurs among the
detections carries the `fire_id` of the first such detection (an arbitrary
representative, not a true fire-to-zone mapping), while a zone of an absent
category carries a NaN identifier; with no `fire_id` column no zone carries an
identifier at all. -/
theorem C3_dissolve_amended (b : ScoredBatch) (hcat : b.hasRiskCategoryCol = true) :
    ((create_risk_buffers b true).map BufferRow.risk_category
        = [some RiskCategory.Low, some RiskCategory.Moderate,
           some RiskCategory.High]) ∧
    (b.hasFireIdCol = false →
      ∀ z ∈ create_risk_buffers b true, z.fire_id = none) ∧
    (b.hasFireIdCol = true →
      ∀ z ∈ create_risk_buffers b true,
        (∃ r ∈ b.rows, r.risk_category = z.risk_category ∧
            z.fire_id = some r.det.fire_id) ∨
        (z.fire_id = none ∧
            ∀ r ∈ b.rows, r.risk_category ≠ z.risk_category)) := by
  have hout : create_risk_buffers b true = dissolveByCategory b := by
    unfold create_risk_buffers
    rw [hcat]
    rfl
  rw [hout]
  refine ⟨rfl, ?_, ?_⟩
  · intro hfid z hz
    unfold dissolveByCategory at hz
    rcases List.mem_map.mp hz with ⟨c, hc, rfl⟩
    simp [hfid]
  · intro hfid z hz
    unfold dissolveByCategory at hz
    rcases List.mem_map.mp hz with ⟨c, hc, rfl⟩
    cases hf : b.rows.find? (fun r => decide (r.risk_category = some c)) with
    | none =>
        right
        constructor
        · simp [hfid, hf]
        · intro r hr
          have hnone := List.find?_eq_none.mp hf r hr
          simp only [decide_eq_true_eq] at hnone
          exact hnone
    | some r =>
        left
        refine ⟨r, List.mem_of_find?_eq_some hf, ?_, ?_⟩
        · have hpr := List.find?_some hf
          simp only [decide_eq_true_eq] at hpr
          exact hpr
        · simp [hfid, hf]

/-- C3 witness: the amended dissolve description evaluated on the concrete
one-row scored batch. -/
theorem C3_dissolve_amended_witness :
    ((create_risk_buffers cexBatchC3 true).map BufferRow.risk_category
        = [some RiskCategory.Low, some RiskCategory.Moderate,
           some RiskCategory.High]) ∧
    (cexBatchC3.hasFireIdCol = false →
      ∀ z ∈ create_risk_buffers cexBatchC3 true, z.fire_id = none) ∧
    (cexBatchC3.hasFireIdCol = true →
      ∀ z ∈ create_risk_buffers cexBatchC3 true,
        (∃ r ∈ cexBatchC3.rows, r.risk_category = z.risk_category ∧
            z.fire_id = some r.det.fire_id) ∨
        (z.fire_id = none ∧
            ∀ r ∈ cexBatchC3.rows, r.risk_category ≠ z.risk_category)) :=
  C3_dissolve_amended cexBatchC3 rfl

/-- C8 counterexample: dissolving the empty scored batch yields 3 zones (one
per category level), not 0; and dissolving the one-detection batch, in which
only one category is present, also yields 3 zones rather than at most 1 — so
the dissolve cardinality is not bounded by the number of categories present. -/
theorem C8_cardinality_counterexample :
    (create_risk_buffers emptyScoredBatch true).length = 3 ∧
    (create_risk_buffers cexBatchC3 true).length = 3 ∧
    ((cexBatchC3.rows.filterMap ScoredRow.risk_category).dedup).length = 1 := by
  refine ⟨rfl, rfl, ?_⟩
  simp [cexBatchC3, srLow, List.filterMap, List.dedup]

/-- C8 (amended): with the categorical risk_category column, dissolve=True
returns one zone per category level — always exactly 3, whichever categories
are present, and 3 even for an empty batch (absent categories appear as
NaN-filled zones) — while dissolve=False returns exactly one buffer row per
input detection. -/
theorem C8_cardinality_amended (b : ScoredBatch) (hcat : b.hasRiskCategoryCol = true) :
    (create_risk_buffers b true).length = 3 ∧
    (create_risk_buffers b false).length = b.rows.length := by
  constructor
  · have hout : create_risk_buffers b true = dissolveByCategory b := by
      unfold create_risk_buffers
      rw [hcat]
      rfl
    rw [hout]
    unfold dissolveByCategory
    rw [List.length_map]
    rfl
  · unfold create_risk_buffers
    simp

/-- C8 witness: cardinalities evaluated on the concrete three-category scored
batch. -/
theorem C8_cardinality_amended_witness :
    (create_risk_buffers wBatchC8 true).length = 3 ∧
    (create_risk_buffers wBatchC8 false).length = wBatchC8.rows.length :=
  C8_cardinality_amended wBatchC8 rfl

/-- C9: a grid cell with exactly `detection_threshold` windowed detections is
included in the persistent-anomaly output and a cell with one fewer is
excluded (the `HAVING COUNT(*) >= threshold` cut). -/
theorem C9_threshold_boundary (hist : List HistRow) (start : Nat) (g : ℚ) (t : Nat)
    (ht : 1 ≤ t) (k : ℚ × ℚ) :
    (cellCount hist start g k = t →
      k ∈ identify_persistent_anomalies (Except.ok hist) start g t) ∧
    (cellCount hist start g k = t - 1 →
      k ∉ identify_persistent_anomalies (Except.ok hist) start g t) := by
  constructor
  · intro hc
    show k ∈ persistentCells hist start g t
    unfold persistentCells
    rw [List.mem_filter]
    constructor
    · rw [List.mem_dedup, List.mem_map]
      have hpos : 0 < cellCount hist start g k := by omega
      unfold cellCount at hpos
      rcases List.exists_mem_of_ne_nil _ (List.length_pos.mp hpos) with ⟨r, hr⟩
      rw [List.mem_filter] at hr
      exact ⟨r, hr.1, of_decide_eq_true hr.2⟩
    · simp only [decide_eq_true_eq]
      omega
  · intro hc hmem
    have hmem2 : k ∈ persistentCells hist start g t := hmem
    unfold persistentCells at hmem2
    rw [List.mem_filter] at hmem2
    have h2 := hmem2.2
    simp only [decide_eq_true_eq] at h2
    omega

/-- Concrete evaluation: all five historical detections of `histWit` fall in
the windowed grid cell (34, -118) at grid size 1. -/
theorem cellCount_histWit : cellCount histWit 0 1 ((34 : ℚ), (-118 : ℚ)) = 5 := by
  have hg : ∀ n : Nat,
      gridKey 1 { latitude := 34, longitude := -118, acq_date := n }
        = ((34 : ℚ), (-118 : ℚ)) := by
    intro n
    unfold gridKey
    norm_num
  unfold cellCount histWit
  simp [inWindow, List.filter_cons, hg]

/-- C9 witness: the threshold boundary evaluated on the concrete five-row
history with threshold 5: the cell is included. -/
theorem C9_threshold_boundary_witness :
    ((34 : ℚ), (-118 : ℚ)) ∈ identify_persistent_anomalies (Except.ok histWit) 0 1 5 :=
  (C9_threshold_boundary histWit 0 1 5 (by norm_num) ((34 : ℚ), (-118 : ℚ))).1
    cellCount_histWit
